import Mathlib

/-!
Shallow embedding of the payment-polling core of the paynow-nextjs-demo
storefront: the cart store (`src/utils/cart.ts`), the PayNow service
(`src/services/paynow.ts`), the payment initiation and status API handlers,
and the checkout page's poll loop (`src/pages/checkout.tsx`).

Numbers: decimal currency amounts are embedded as exact rationals (`ℚ`),
JavaScript integer-valued quantities and ids as `ℤ`, millisecond timestamps
as `ℕ`.  `Math.round` is embedded as `jsRound` (floor of x + 1/2, which is
JavaScript's round-half-up behaviour on reals).
-/

/-- `Math.round`: JavaScript rounds half-way cases toward positive infinity,
i.e. `Math.round x = ⌊x + 0.5⌋`. -/
def jsRound (x : ℚ) : ℤ := ⌊x + 1/2⌋

/-- JavaScript truthiness of an optional string field: `undefined` and the
empty string are falsy. -/
def strTruthy : Option String → Bool
  | none => false
  | some s => !(s = "")

/-- `a || b` for an optional string `a` and default `b` (JS `||` takes the
default when `a` is `undefined` or `""`). -/
def jsOrElse (a : Option String) (b : String) : String :=
  match a with
  | none => b
  | some s => if s = "" then b else s

/-! ## Data model (`src/types/types.ts`) -/

/-- `Product` from `types.ts`. -/
structure Product where
  id : ℤ
  name : String
  price : ℚ
  description : String
  image : String
  stock : ℤ
deriving DecidableEq, Repr

/-- `CartItem extends Product { quantity }` from `types.ts`. -/
structure CartItem extends Product where
  quantity : ℤ
deriving DecidableEq, Repr

/-! ## Cart store (`src/utils/cart.ts`, zustand store) -/

/-- The recurring `items.reduce((sum, item) => sum + item.price * item.quantity, 0)`
expression of the cart store. -/
def cartSum (items : List CartItem) : ℚ :=
  items.foldl (fun sum item => sum + item.price * item.quantity) 0

/-- The state slice of `useCartStore` that the operations touch. -/
structure CartState where
  items : List CartItem
  isOpen : Bool
  total : ℚ
deriving DecidableEq, Repr

/-- `addItem` of `useCartStore`: increments the quantity of an existing item
with the same id, otherwise appends the product with quantity 1; the total is
recomputed from the new item list. -/
def addItem (state : CartState) (product : Product) : CartState :=
  match state.items.find? (fun item => item.id = product.id) with
  | some _ =>
      let updatedItems := state.items.map (fun item =>
        if item.id = product.id then { item with quantity := item.quantity + 1 } else item)
      { state with items := updatedItems, total := cartSum updatedItems }
  | none =>
      let newItems := state.items ++ [{ product with quantity := 1 }]
      { state with items := newItems, total := cartSum newItems }

/-- `removeItem` of `useCartStore`. -/
def removeItem (state : CartState) (productId : ℤ) : CartState :=
  let newItems := state.items.filter (fun item => !(item.id = productId))
  { state with items := newItems, total := cartSum newItems }

/-- `updateQuantity` of `useCartStore`: sets the quantity of the matching item
to the given value (no clamping), recomputing the total. -/
def updateQuantity (state : CartState) (productId : ℤ) (quantity : ℤ) : CartState :=
  let newItems := state.items.map (fun item =>
    if item.id = productId then { item with quantity := quantity } else item)
  { state with items := newItems, total := cartSum newItems }

/-- `clearCart` of `useCartStore`. -/
def clearCart (state : CartState) : CartState :=
  { state with items := [], total := 0 }

/-! ## PayNow service: payment creation amounts (`src/services/paynow.ts`) -/

/-- The line items `initiateWebPayment` adds to the gateway payment:
`payment.add(item.name, Math.round(item.price * 100) * item.quantity)`. -/
def webPaymentItems (items : List CartItem) : List (String × ℤ) :=
  items.map (fun item => (item.name, jsRound (item.price * 100) * item.quantity))

/-- The line items `initiateMobilePayment` adds to the gateway payment:
`payment.add(item.name, item.price * item.quantity)` — raw decimal units. -/
def mobilePaymentItems (items : List CartItem) : List (String × ℚ) :=
  items.map (fun item => (item.name, item.price * item.quantity))

/-! ## PayNow service: status polling (`src/services/paynow.ts`) -/

/-- `PAYNOW_TEST_NUMBERS.SUCCESS`. -/
def TEST_SUCCESS : String := "0771111111"
/-- `PAYNOW_TEST_NUMBERS.DELAYED`. -/
def TEST_DELAYED : String := "0772222222"
/-- `PAYNOW_TEST_NUMBERS.CANCELLED`. -/
def TEST_CANCELLED : String := "0773333333"
/-- `PAYNOW_TEST_NUMBERS.INSUFFICIENT`. -/
def TEST_INSUFFICIENT : String := "0774444444"

/-- The shape of `this.paynow.pollTransaction`'s resolved value as the service
uses it: `status.status?` and `status.error`. -/
structure StatusResponse where
  status : Option String
  error : Option String
deriving DecidableEq, Repr

/-- The resolved value of `checkPaymentStatus`:
`{ paid: boolean, status: 'pending'|'paid'|'cancelled'|'failed', error?: string }`. -/
structure CheckResult where
  paid : Bool
  status : String
  error : Option String
deriving DecidableEq, Repr

/-- `checkPaymentStatus` of `PaynowService`.

The awaited `this.paynow.pollTransaction(pollUrl)` call is the first statement
of the `try` block, so it is embedded as an input `pollResult`: `Except.error`
is a rejected promise, handled by the `catch` clause; `Except.ok` carries the
gateway's response.  `isDevelopment` is `process.env.NODE_ENV === 'development'`,
`now` is `Date.now()`.  `startTime ? Date.now() - startTime : 0` treats a zero
start time as falsy, hence the `t = 0` branch. -/
def checkPaymentStatus (pollResult : Except String StatusResponse)
    (isDevelopment : Bool) (phone : Option String) (startTime : Option ℕ)
    (now : ℕ) : CheckResult :=
  match pollResult with
  | .error msg => { paid := false, status := "failed", error := some msg }
  | .ok status =>
    let elapsedTime : ℕ :=
      match startTime with
      | some t => if t = 0 then 0 else now - t
      | none => 0
    if isDevelopment && strTruthy phone then
      let ph := phone.getD ""
      if ph = TEST_DELAYED then
        if elapsedTime < 30000 then
          { paid := false, status := "pending", error := some "Payment processing..." }
        else
          { paid := true, status := "paid", error := none }
      else if ph = TEST_CANCELLED then
        if elapsedTime < 30000 then
          { paid := false, status := "pending", error := some "Waiting for customer response..." }
        else
          { paid := false, status := "cancelled", error := some "Payment was cancelled by the user" }
      else if ph = TEST_SUCCESS then
        if elapsedTime < 5000 then
          { paid := false, status := "pending", error := some "Processing payment..." }
        else
          { paid := true, status := "paid", error := none }
      else if ph = TEST_INSUFFICIENT then
        { paid := false, status := "failed", error := some "Insufficient balance in your account" }
      else
        let paymentStatus := jsOrElse (status.status.map String.toLower) "pending"
        { paid := paymentStatus = "paid" || paymentStatus = "complete" || paymentStatus = "confirmed",
          status := paymentStatus, error := status.error }
    else
      let paymentStatus := jsOrElse (status.status.map String.toLower) "pending"
      { paid := paymentStatus = "paid" || paymentStatus = "complete" || paymentStatus = "confirmed",
        status := paymentStatus, error := status.error }

/-! ## Status endpoint (`src/pages/api/payment/update.ts`) -/

/-- HTTP response of the status endpoint: non-POST requests get a bare
405 `{message}`; otherwise a `{success, status, message?}` body with a code. -/
inductive UpdateResponse
  | notAllowed (code : ℕ) (message : String)
  | result (code : ℕ) (success : Bool) (status : String) (message : Option String)
deriving DecidableEq, Repr

/-- The status endpoint handler.  `check` is the outcome of the `try` block's
awaited `checkPaymentStatus` call: `Except.error` is any exception thrown
inside the `try` (e.g. the `PaynowService` constructor failing), carrying the
error's message. -/
def updateHandler (method : String) (check : Except String CheckResult) :
    UpdateResponse :=
  if method ≠ "POST" then .notAllowed 405 "Method not allowed"
  else
    match check with
    | .ok ps => .result 200 ps.paid ps.status ps.error
    | .error msg => .result 500 false "failed" (some msg)

/-! ## Initiation endpoint (`src/pages/api/payment/initiate.ts`) -/

/-- Request body fields the initiation handler reads. -/
structure InitRequest where
  email : String
  paymentMethod : String
  phone : Option String
deriving DecidableEq, Repr

/-- Result of a gateway create-payment call as the handler consumes it. -/
structure GatewayResult where
  success : Bool
  error : Option String
deriving DecidableEq, Repr

/-- Which `PaynowService` operation the handler delegated to, with the
arguments relevant to method selection. -/
inductive Delegation
  | webCall
  | mobileCall (phone : String) (method : String)
deriving DecidableEq, Repr

/-- HTTP response of the initiation endpoint. -/
inductive InitResponse
  | notAllowed (code : ℕ) (message : String)
  | err (code : ℕ) (message : String)
  | ok (code : ℕ) (payload : GatewayResult)
deriving DecidableEq, Repr

/-- Handler outcome: the response sent, and the gateway call performed. -/
structure InitOutcome where
  response : InitResponse
  delegated : Option Delegation
deriving DecidableEq, Repr

/-- The initiation endpoint handler.  `webResult` stands for the resolved
value of `paynowService.initiateWebPayment(items, email)` and `mobileResult`
for `paynowService.initiateMobilePayment(items, email, phone, method)` as a
function of the phone and method arguments (those calls never reject: the
service catches internally).  The handler routes on `paymentMethod`, throws
`'Phone number required for mobile payments'` when `phone` is falsy for a
mobile method (caught by its own `catch`, producing a 500), and passes the
string `'ecocash'` as the method of every mobile call. -/
def initiateHandler (method : String) (req : InitRequest)
    (webResult : GatewayResult) (mobileResult : String → String → GatewayResult) :
    InitOutcome :=
  if method ≠ "POST" then ⟨.notAllowed 405 "Method not allowed", none⟩
  else if req.paymentMethod = "web" then
    let r := webResult
    if !r.success then
      ⟨.err 400 (jsOrElse r.error "Payment initiation failed"), some .webCall⟩
    else ⟨.ok 200 r, some .webCall⟩
  else if !(strTruthy req.phone) then
    ⟨.err 500 "Phone number required for mobile payments", none⟩
  else
    let ph := req.phone.getD ""
    let r := mobileResult ph "ecocash"
    if !r.success then
      ⟨.err 400 (jsOrElse r.error "Payment initiation failed"), some (.mobileCall ph "ecocash")⟩
    else ⟨.ok 200 r, some (.mobileCall ph "ecocash")⟩

/-! ## Checkout orchestrator poll loop (`src/pages/checkout.tsx`, `startPolling`) -/

/-- `PaymentStatus.status` of the checkout page. -/
inductive UIStatus
  | idle
  | pending
  | success
  | error
deriving DecidableEq, Repr

/-- `PaymentStatus` of the checkout page: the argument of
`setMobilePaymentStatus`. -/
structure MobileStatus where
  status : UIStatus
  message : String
  countdown : Option ℤ
deriving DecidableEq, Repr

/-- The JSON body `startPolling` reads from the status endpoint:
`data.status` and `data.message`. -/
structure PollResponse where
  status : String
  message : Option String
deriving DecidableEq, Repr

/-- What one invocation of `startPolling` does after its fetch resolves:
the successive `setMobilePaymentStatus` calls, the delay of the
`setTimeout(() => startPolling(...), 5000)` reschedule if any, and the delay
of the `setTimeout(() => router.push('/payment/success'), 2000)` navigation
if any. -/
structure TickResult where
  updates : List MobileStatus
  nextPollDelay : Option ℕ
  navDelay : Option ℕ
deriving DecidableEq, Repr

/-- One tick of `startPolling` (lines 189–225 of `checkout.tsx`), given the
endpoint's response body `data`, the current time `now = Date.now()` and the
poll state's `startTime`.  `elapsedTime = Math.floor((now - startTime)/1000)`,
`remainingTime = 60 - elapsedTime`. -/
def startPollingTick (data : PollResponse) (now startTime : ℕ) : TickResult :=
  let elapsedTime : ℕ := (now - startTime) / 1000
  let remainingTime : ℤ := 60 - (elapsedTime : ℤ)
  if data.status = "pending" then
    let pendingStatus : MobileStatus :=
      { status := .pending, message := "Processing payment...",
        countdown := some (if remainingTime > 0 then remainingTime else 0) }
    if remainingTime > 0 then
      { updates := [pendingStatus], nextPollDelay := some 5000, navDelay := none }
    else
      { updates := [pendingStatus,
          { status := .error, message := "Payment timed out after 1 minute", countdown := none }],
        nextPollDelay := none, navDelay := none }
  else if data.status = "paid" then
    { updates := [{ status := .success, message := "Payment completed successfully", countdown := none }],
      nextPollDelay := none, navDelay := some 2000 }
  else
    { updates := [{ status := .error, message := jsOrElse data.message "Payment failed", countdown := none }],
      nextPollDelay := none, navDelay := none }

/-- Driver of the self-rescheduling poll loop: `resp t` is the endpoint's
response to the poll request issued at time `t`; a tick whose result schedules
another poll is followed by a tick `5000` ms later (the scheduled delay);
a tick that schedules none ends the run.  `fuel` bounds the number of ticks.
Returns the list of `(tick time, tick result)` pairs in order. -/
def runPolling (resp : ℕ → PollResponse) (startTime : ℕ) :
    ℕ → ℕ → List (ℕ × TickResult)
  | 0, _ => []
  | fuel + 1, t =>
    (t, startPollingTick (resp t) t startTime) ::
      (match (startPollingTick (resp t) t startTime).nextPollDelay with
        | some d => runPolling resp startTime fuel (t + d)
        | none => [])

/-- In any run of the poll loop, a tick that scheduled no next poll is the
last tick: no further poll request is ever issued after it. -/
lemma runPolling_stops_after_none (resp : ℕ → PollResponse) (startTime : ℕ) :
    ∀ (fuel t : ℕ) (pre : List (ℕ × TickResult)) (p : ℕ × TickResult)
      (rest : List (ℕ × TickResult)),
      runPolling resp startTime fuel t = pre ++ p :: rest →
      p.2.nextPollDelay = none → rest = [] := by
  intro fuel
  induction fuel with
  | zero =>
      intro t pre p rest h _
      simp only [runPolling] at h
      exact absurd h.symm (by simp)
  | succ n ih =>
      intro t pre p rest h hnone
      simp only [runPolling] at h
      cases pre with
      | nil =>
          rw [List.nil_append] at h
          injection h with h1 h2
          subst h1
          have hr : (startPollingTick (resp t) t startTime).nextPollDelay = none := hnone
          rw [hr] at h2
          simpa using h2.symm
      | cons q pre' =>
          rw [List.cons_append] at h
          injection h with h1 h2
          rcases hd : (startPollingTick (resp t) t startTime).nextPollDelay with _ | d
          · rw [hd] at h2
            exact absurd h2.symm (by simp)
          · rw [hd] at h2
            exact ih (t + d) pre' p rest (by simpa using h2) hnone

/-! ## Claim theorems -/

/-- C1: In non-production (development) mode, for every poll carrying a
reserved test phone and a start time, `checkPaymentStatus` returns: for the
SUCCESS number, `pending` (not paid) while elapsed < 5000 ms and `paid`
(paid = true) thereafter; for the INSUFFICIENT number, `failed` with an
insufficient-balance message immediately, on every poll, with no intermediate
`pending`; for the DELAYED number, `pending` while elapsed < 30000 ms then
`paid`; for the CANCELLED number, `pending` while elapsed < 30000 ms then
`cancelled`. -/
theorem checkPaymentStatus_test_scenarios (s : StatusResponse) (t now : ℕ)
    (ht : t ≠ 0) :
    ((now - t < 5000 →
        checkPaymentStatus (.ok s) true (some TEST_SUCCESS) (some t) now
          = ⟨false, "pending", some "Processing payment..."⟩) ∧
      (5000 ≤ now - t →
        checkPaymentStatus (.ok s) true (some TEST_SUCCESS) (some t) now
          = ⟨true, "paid", none⟩)) ∧
    (checkPaymentStatus (.ok s) true (some TEST_INSUFFICIENT) (some t) now
        = ⟨false, "failed", some "Insufficient balance in your account"⟩) ∧
    ((now - t < 30000 →
        checkPaymentStatus (.ok s) true (some TEST_DELAYED) (some t) now
          = ⟨false, "pending", some "Payment processing..."⟩) ∧
      (30000 ≤ now - t →
        checkPaymentStatus (.ok s) true (some TEST_DELAYED) (some t) now
          = ⟨true, "paid", none⟩)) ∧
    ((now - t < 30000 →
        checkPaymentStatus (.ok s) true (some TEST_CANCELLED) (some t) now
          = ⟨false, "pending", some "Waiting for customer response..."⟩) ∧
      (30000 ≤ now - t →
        checkPaymentStatus (.ok s) true (some TEST_CANCELLED) (some t) now
          = ⟨false, "cancelled", some "Payment was cancelled by the user"⟩)) := by
  refine ⟨⟨fun h => ?_, fun h => ?_⟩, ?_, ⟨fun h => ?_, fun h => ?_⟩, ⟨fun h => ?_, fun h => ?_⟩⟩ <;>
    simp +decide [checkPaymentStatus, strTruthy, TEST_SUCCESS, TEST_DELAYED, TEST_CANCELLED,
      TEST_INSUFFICIENT, ht] <;>
    omega

/-- Witness for C1 at a concrete input: SUCCESS test number, start time 1 ms,
polled at 2 ms (elapsed 1 < 5000, pending) and at 6001 ms (elapsed 6000,
paid). -/
theorem checkPaymentStatus_test_scenarios_witness :
    checkPaymentStatus (.ok ⟨none, none⟩) true (some TEST_SUCCESS) (some 1) 2
        = ⟨false, "pending", some "Processing payment..."⟩ ∧
    checkPaymentStatus (.ok ⟨none, none⟩) true (some TEST_SUCCESS) (some 1) 6001
        = ⟨true, "paid", none⟩ :=
  ⟨(checkPaymentStatus_test_scenarios ⟨none, none⟩ 1 2 (by decide)).1.1 (by decide),
   (checkPaymentStatus_test_scenarios ⟨none, none⟩ 1 6001 (by decide)).1.2 (by decide)⟩

/-- C10: `checkPaymentStatus` awaits the real gateway `pollTransaction` call
before any scenario branch: if that call rejects, the scenario simulation is
not applied — whatever the mode, phone (even a reserved test number) and
start time — and the result is `{paid: false, status: 'failed'}` carrying the
thrown error's message. -/
theorem checkPaymentStatus_gateway_error_first (msg : String) (isDevelopment : Bool)
    (phone : Option String) (startTime : Option ℕ) (now : ℕ) :
    checkPaymentStatus (.error msg) isDevelopment phone startTime now
      = ⟨false, "failed", some msg⟩ := rfl

/-- C6: for every POST to the status endpoint, the response body is
`{success, status, message?}` with `success` equal to the `paid` boolean of
the status check's result, and an error thrown during the check is wrapped as
a `{success: false, status: 'failed', message}` body, never propagated
unwrapped. -/
theorem updateHandler_response_shape :
    (∀ c : CheckResult,
        updateHandler "POST" (.ok c) = .result 200 c.paid c.status c.error) ∧
    (∀ msg : String,
        updateHandler "POST" (.error msg) = .result 500 false "failed" (some msg)) :=
  ⟨fun _ => rfl, fun _ => rfl⟩

/-- C7: the initiation endpoint answers every non-POST request with 405
"Method not allowed", and every POST whose `paymentMethod` is not `'web'` and
whose `phone` is missing (falsy) with a 500 whose message is
"Phone number required for mobile payments". -/
theorem initiateHandler_method_and_phone_errors :
    (∀ (m : String) (req : InitRequest) (w : GatewayResult)
        (mob : String → String → GatewayResult), m ≠ "POST" →
        initiateHandler m req w mob = ⟨.notAllowed 405 "Method not allowed", none⟩) ∧
    (∀ (req : InitRequest) (w : GatewayResult) (mob : String → String → GatewayResult),
        req.paymentMethod ≠ "web" → strTruthy req.phone = false →
        initiateHandler "POST" req w mob
          = ⟨.err 500 "Phone number required for mobile payments", none⟩) := by
  constructor
  · intro m req w mob hm
    simp [initiateHandler, hm]
  · intro req w mob hweb hph
    simp [initiateHandler, hweb, hph]

/-- Witness for C7: a GET request is answered 405, and a POST with
`paymentMethod = 'ecocash'` and no phone is answered 500 with the
phone-required message. -/
theorem initiateHandler_method_and_phone_errors_witness :
    initiateHandler "GET" ⟨"c@example.com", "ecocash", none⟩ ⟨true, none⟩
        (fun _ _ => ⟨true, none⟩) = ⟨.notAllowed 405 "Method not allowed", none⟩ ∧
    initiateHandler "POST" ⟨"c@example.com", "ecocash", none⟩ ⟨true, none⟩
        (fun _ _ => ⟨true, none⟩)
      = ⟨.err 500 "Phone number required for mobile payments", none⟩ :=
  ⟨initiateHandler_method_and_phone_errors.1 "GET" ⟨"c@example.com", "ecocash", none⟩
      ⟨true, none⟩ (fun _ _ => ⟨true, none⟩) (by decide),
   initiateHandler_method_and_phone_errors.2 ⟨"c@example.com", "ecocash", none⟩
      ⟨true, none⟩ (fun _ _ => ⟨true, none⟩) (by decide) rfl⟩

/-- C5 (code evaluated at the failing input): a POST with
`paymentMethod = 'onemoney'` and a phone is delegated to the mobile-payment
operation with the hard-coded method string `'ecocash'`, not `'onemoney'`. -/
theorem initiateHandler_hardcodes_ecocash :
    (initiateHandler "POST" ⟨"customer@example.com", "onemoney", some "0771111111"⟩
        ⟨true, none⟩ (fun _ _ => ⟨true, none⟩)).delegated
      = some (.mobileCall "0771111111" "ecocash") := rfl

/-- C2: on every `startPolling` tick whose response status is `'pending'`,
with `remaining = 60 - ⌊(now - startTime)/1000⌋`: if `remaining > 0` the tick
shows countdown `max remaining 0` and schedules the next tick after a fixed
5000 ms delay; if `remaining ≤ 0` the tick ends in the timed-out error state
with message "Payment timed out after 1 minute" (still showing countdown
`max remaining 0 = 0`) and schedules nothing — and in any run of the poll
loop, a tick that scheduled nothing is the last: no further poll request is
ever issued. -/
theorem startPolling_pending_tick_spec (data : PollResponse) (now startTime : ℕ)
    (hp : data.status = "pending") :
    ((0:ℤ) < 60 - (((now - startTime)/1000 : ℕ) : ℤ) →
      startPollingTick data now startTime =
        ⟨[⟨.pending, "Processing payment...",
            some (max (60 - (((now - startTime)/1000 : ℕ) : ℤ)) 0)⟩],
          some 5000, none⟩) ∧
    (60 - (((now - startTime)/1000 : ℕ) : ℤ) ≤ 0 →
      startPollingTick data now startTime =
        ⟨[⟨.pending, "Processing payment...",
            some (max (60 - (((now - startTime)/1000 : ℕ) : ℤ)) 0)⟩,
          ⟨.error, "Payment timed out after 1 minute", none⟩],
          none, none⟩) ∧
    (∀ (resp : ℕ → PollResponse) (st fuel t : ℕ) (pre : List (ℕ × TickResult))
        (p : ℕ × TickResult) (rest : List (ℕ × TickResult)),
      runPolling resp st fuel t = pre ++ p :: rest →
      p.2.nextPollDelay = none → rest = []) := by
  refine ⟨fun hr => ?_, fun hr => ?_, fun resp st fuel t pre p rest h hn =>
    runPolling_stops_after_none resp st fuel t pre p rest h hn⟩
  · have hn : ((now - startTime : ℕ) : ℤ)/1000 < 60 := by omega
    rw [max_eq_left hr.le]
    simp [startPollingTick, hp, hn]
  · have hn : ¬ (((now - startTime : ℕ) : ℤ)/1000 < 60) := by omega
    rw [max_eq_right (by omega : 60 - (((now - startTime)/1000 : ℕ) : ℤ) ≤ 0)]
    simp [startPollingTick, hp, hn]

/-- Witness for C2 at concrete inputs: a pending tick at 0 ms elapsed shows a
60 s countdown and reschedules after 5000 ms; a pending tick at 65 s elapsed
times out with "Payment timed out after 1 minute" and schedules nothing. -/
theorem startPolling_pending_tick_spec_witness :
    startPollingTick ⟨"pending", none⟩ 1000 1000 =
      ⟨[⟨.pending, "Processing payment...", some 60⟩], some 5000, none⟩ ∧
    startPollingTick ⟨"pending", none⟩ 66000 1000 =
      ⟨[⟨.pending, "Processing payment...", some 0⟩,
        ⟨.error, "Payment timed out after 1 minute", none⟩], none, none⟩ := by
  constructor
  · have h := (startPolling_pending_tick_spec ⟨"pending", none⟩ 1000 1000 rfl).1 (by decide)
    simpa using h
  · have h := (startPolling_pending_tick_spec ⟨"pending", none⟩ 66000 1000 rfl).2.1 (by decide)
    simpa using h

/-- The `{phone, startTime}` fields one `startPolling` invocation posts to
the status endpoint (the poll URL is the same on every tick and is omitted
here). -/
structure PollRequest where
  phone : Option String
  startTime : ℕ
deriving DecidableEq, Repr

/-- The chain of `startPolling` invocations as actually wired in
`checkout.tsx`: the whole chain runs inside the render closure from which
`handlePayNowCheckout` first called it, where `pollData` is still `null` (the
`setPollData` update is never visible to these closures), so every tick
rebuilds `currentPollData = { url: pollUrl, phone: <argument>, startTime: Date.now() }`.
The first invocation receives the form phone as its argument, while the
reschedule `setTimeout(() => startPolling(pollUrl), 5000)` passes no phone.
Each tick posts its request, obtains the status endpoint's `{status, message}`
(computed by `checkPaymentStatus` with the gateway poll resolving to `gw t`),
and acts on it as `startPollingTick`.  Returns `(tick time, posted request,
tick outcome)` triples. -/
def runStartPolling (gw : ℕ → StatusResponse) (isDevelopment : Bool) :
    Option String → ℕ → ℕ → List (ℕ × PollRequest × TickResult)
  | _, 0, _ => []
  | phoneArg, fuel + 1, t =>
    (t, ⟨phoneArg, t⟩,
      startPollingTick
        ⟨(checkPaymentStatus (.ok (gw t)) isDevelopment phoneArg (some t) t).status,
         (checkPaymentStatus (.ok (gw t)) isDevelopment phoneArg (some t) t).error⟩ t t) ::
      (match (startPollingTick
          ⟨(checkPaymentStatus (.ok (gw t)) isDevelopment phoneArg (some t) t).status,
           (checkPaymentStatus (.ok (gw t)) isDevelopment phoneArg (some t) t).error⟩
            t t).nextPollDelay with
        | some d => runStartPolling gw isDevelopment none fuel (t + d)
        | none => [])

/-- C3 (code evaluated at a failing input): a mobile payment initiated in
development mode with the SUCCESS test phone at start time 1 ms, with a
gateway that reports no status yet, polled for three ticks.  Only the first
tick posts the phone; the rescheduled ticks at 5001 ms and 10001 ms post
`phone = none` with their own tick time as a fresh start time, so they take
the real-gateway branch — the SUCCESS simulation is never consulted after the
first tick and elapsed time never accumulates — and the run is still
`pending` with a full 60 s countdown at every tick, 10 s after the scenario
should have turned `paid`: the claimed pending-then-paid resolved-success run
does not happen. -/
theorem startPolling_drops_phone_on_reschedule :
    runStartPolling (fun _ => ⟨none, none⟩) true (some TEST_SUCCESS) 3 1 =
      [(1, ⟨some TEST_SUCCESS, 1⟩,
          ⟨[⟨.pending, "Processing payment...", some 60⟩], some 5000, none⟩),
       (5001, ⟨none, 5001⟩,
          ⟨[⟨.pending, "Processing payment...", some 60⟩], some 5000, none⟩),
       (10001, ⟨none, 10001⟩,
          ⟨[⟨.pending, "Processing payment...", some 60⟩], some 5000, none⟩)] := by
  simp +decide [runStartPolling, checkPaymentStatus, startPollingTick, strTruthy, jsOrElse,
    TEST_SUCCESS, TEST_DELAYED, TEST_CANCELLED, TEST_INSUFFICIENT]

/-- C4: every cart item contributes `Math.round(price * 100) * quantity` to
a web payment — the price is rounded to integer cents before the quantity
multiplication — and for price 19.995 with quantity 2 the submitted amount is
`round(1999.5) * 2 = 4000`, not `round(3999) = 3999` as multiply-then-round
would give. -/
theorem webPayment_round_then_multiply :
    (∀ (items : List CartItem) (item : CartItem), item ∈ items →
        (item.name, jsRound (item.price * 100) * item.quantity) ∈ webPaymentItems items) ∧
    (∀ item : CartItem, item.price = 19995/1000 → item.quantity = 2 →
        webPaymentItems [item] = [(item.name, 4000)]) ∧
    jsRound ((19995 : ℚ)/1000 * 2 * 100) = 3999 := by
  refine ⟨fun items item h => List.mem_map_of_mem _ h, fun item hp hq => ?_, ?_⟩
  · simp only [webPaymentItems, List.map_cons, List.map_nil, hp, hq]
    norm_num [jsRound]
  · norm_num [jsRound]

/-- Witness for C4 at a concrete input: an item priced 19.995 with quantity 2
is submitted to the web payment as 4000 cents. -/
theorem webPayment_round_then_multiply_witness :
    webPaymentItems [⟨⟨1, "Widget", 19995/1000, "d", "i", 10⟩, 2⟩]
      = [("Widget", 4000)] :=
  webPayment_round_then_multiply.2.1 ⟨⟨1, "Widget", 19995/1000, "d", "i", 10⟩, 2⟩ rfl rfl

/-- Rounding a hundredfold integer: `jsRound (n * 100) = 100 * n`. -/
lemma jsRound_intCast_mul (n : ℤ) : jsRound ((n : ℚ) * 100) = 100 * n := by
  rw [jsRound]
  rw [show ((n : ℚ) * 100 + 1/2) = ((100 * n : ℤ) : ℚ) + 1/2 by push_cast; ring]
  rw [Int.floor_int_add]
  norm_num

/-- Counterexample to C9 as stated: for an item with nonzero price 5 and
quantity 0, the mobile path's amount and the web path's amount are both 0 —
they do not differ even though the price is not zero. -/
theorem mobile_vs_web_amount_counterexample :
    (⟨⟨1, "Widget", 5, "d", "i", 10⟩, 0⟩ : CartItem).price ≠ 0 ∧
    mobilePaymentItems [⟨⟨1, "Widget", 5, "d", "i", 10⟩, 0⟩] = [("Widget", ((0 : ℤ) : ℚ))] ∧
    webPaymentItems [⟨⟨1, "Widget", 5, "d", "i", 10⟩, 0⟩] = [("Widget", (0 : ℤ))] := by
  refine ⟨by norm_num, ?_, ?_⟩ <;> simp [mobilePaymentItems, webPaymentItems]

/-- C9 (amended): mobile-payment initiation adds each line item with amount
`price * quantity` in raw decimal currency units — no rounding, no conversion
to cents — and for every item whose price and quantity are both nonzero this
amount differs from the `round(price * 100) * quantity` the web path submits
for the same item. -/
theorem mobile_amount_raw_and_differs :
    (∀ (items : List CartItem) (item : CartItem), item ∈ items →
        (item.name, item.price * (item.quantity : ℚ)) ∈ mobilePaymentItems items) ∧
    (∀ item : CartItem, item.price ≠ 0 → item.quantity ≠ 0 →
        mobilePaymentItems [item]
          ≠ (webPaymentItems [item]).map (fun x => (x.1, (x.2 : ℚ)))) := by
  refine ⟨fun items item h => List.mem_map_of_mem _ h, fun item hp hq => ?_⟩
  simp only [mobilePaymentItems, webPaymentItems, List.map_cons, List.map_nil, ne_eq,
    List.cons.injEq, and_true, Prod.mk.injEq, true_and]
  intro h
  have hqQ : ((item.quantity : ℤ) : ℚ) ≠ 0 := Int.cast_ne_zero.mpr hq
  have hpn : item.price = (jsRound (item.price * 100) : ℚ) := by
    push_cast at h
    exact mul_right_cancel₀ hqQ h
  have hfloor : jsRound (item.price * 100) = 100 * jsRound (item.price * 100) := by
    conv_lhs => rw [hpn]
    exact jsRound_intCast_mul (jsRound (item.price * 100))
  have hz : jsRound (item.price * 100) = 0 := by omega
  rw [hz] at hpn
  exact hp (by simpa using hpn)

/-- Witness for C9 (amended) at a concrete input: for price 5, quantity 1,
the mobile path sends 5 while the web path sends 500 cents. -/
theorem mobile_amount_raw_and_differs_witness :
    mobilePaymentItems [⟨⟨1, "Widget", 5, "d", "i", 10⟩, 1⟩]
      ≠ (webPaymentItems [⟨⟨1, "Widget", 5, "d", "i", 10⟩, 1⟩]).map
          (fun x => (x.1, (x.2 : ℚ))) :=
  mobile_amount_raw_and_differs.2 ⟨⟨1, "Widget", 5, "d", "i", 10⟩, 1⟩ (by norm_num) (by decide)

/-- Counterexample to C8 as stated: `updateQuantity` performs no clamping, so
calling it with quantity −1 on a one-item cart leaves the state with a
negative quantity, violating the claimed quantity ≥ 0 invariant. -/
theorem cart_invariant_counterexample :
    ¬ (∀ item ∈ (updateQuantity ⟨[⟨⟨1, "Widget", 5, "d", "i", 10⟩, 1⟩], false, 5⟩
          1 (-1)).items, 0 ≤ item.quantity) := by
  intro h
  have hmem : (⟨⟨1, "Widget", 5, "d", "i", 10⟩, -1⟩ : CartItem)
      ∈ (updateQuantity ⟨[⟨⟨1, "Widget", 5, "d", "i", 10⟩, 1⟩], false, 5⟩ 1 (-1)).items := by
    simp [updateQuantity]
  have := h _ hmem
  norm_num at this

/-- C8 (amended): after every cart-store operation the stored total equals
the sum over all items of price × quantity (the invariant is recomputed
unconditionally); and every item's quantity stays ≥ 0 provided the incoming
state's quantities are ≥ 0 and, for `updateQuantity`, the quantity argument
is ≥ 0 (the store itself never clamps). -/
theorem cart_invariant_amended (state : CartState) (product : Product)
    (productId q : ℤ) (hstate : ∀ item ∈ state.items, 0 ≤ item.quantity)
    (hq : 0 ≤ q) :
    ((addItem state product).total = cartSum (addItem state product).items ∧
      ∀ item ∈ (addItem state product).items, 0 ≤ item.quantity) ∧
    ((removeItem state productId).total = cartSum (removeItem state productId).items ∧
      ∀ item ∈ (removeItem state productId).items, 0 ≤ item.quantity) ∧
    ((updateQuantity state productId q).total
        = cartSum (updateQuantity state productId q).items ∧
      ∀ item ∈ (updateQuantity state productId q).items, 0 ≤ item.quantity) ∧
    ((clearCart state).total = cartSum (clearCart state).items ∧
      ∀ item ∈ (clearCart state).items, 0 ≤ item.quantity) := by
  refine ⟨⟨?_, ?_⟩, ⟨rfl, ?_⟩, ⟨rfl, ?_⟩, ⟨rfl, ?_⟩⟩
  · cases h : state.items.find? (fun item => item.id = product.id) <;> simp [addItem, h]
  · intro item hmem
    cases h : state.items.find? (fun item => item.id = product.id) with
    | none =>
        simp only [addItem, h] at hmem
        rw [List.mem_append] at hmem
        rcases hmem with hm | hm
        · exact hstate item hm
        · simp only [List.mem_singleton] at hm
          subst hm
          exact zero_le_one
    | some x =>
        simp only [addItem, h] at hmem
        rw [List.mem_map] at hmem
        obtain ⟨y, hy, rfl⟩ := hmem
        by_cases hid : y.id = product.id
        · have := hstate y hy
          simp only [hid, if_true]
          omega
        · simpa [hid] using hstate y hy
  · intro item hmem
    simp only [removeItem] at hmem
    rw [List.mem_filter] at hmem
    exact hstate item hmem.1
  · intro item hmem
    simp only [updateQuantity] at hmem
    rw [List.mem_map] at hmem
    obtain ⟨y, hy, rfl⟩ := hmem
    by_cases hid : y.id = productId
    · simp only [hid, if_true]
      exact hq
    · simpa [hid] using hstate y hy
  · intro item hmem
    simp [clearCart] at hmem

/-- Witness for C8 (amended) at a concrete input: updating the quantity of
the only cart item to 2 keeps the total equal to the item sum and all
quantities nonnegative. -/
theorem cart_invariant_amended_witness :
    (updateQuantity ⟨[⟨⟨1, "Widget", 5, "d", "i", 10⟩, 1⟩], false, 5⟩ 1 2).total
        = cartSum (updateQuantity ⟨[⟨⟨1, "Widget", 5, "d", "i", 10⟩, 1⟩], false, 5⟩ 1 2).items ∧
      ∀ item ∈ (updateQuantity ⟨[⟨⟨1, "Widget", 5, "d", "i", 10⟩, 1⟩], false, 5⟩ 1 2).items,
        0 ≤ item.quantity :=
  (cart_invariant_amended ⟨[⟨⟨1, "Widget", 5, "d", "i", 10⟩, 1⟩], false, 5⟩
      ⟨2, "Gadget", 3, "d", "i", 4⟩ 1 2 (by decide) (by decide)).2.2.1
